import Mathlib

/-!
Verification of the MockVoid backend's authentication and user-identity
subsystem.  The TypeScript sources (Joi validators, `AuthService`, `AuthDao`,
`UserDto`, the `isLoggedIn` middleware, `ErrorHandler`, and the
`UserAuthController`) are shallowly embedded as executable Lean definitions:
stateful persistence becomes explicit `Store` passing, thrown errors become
`Except`, JavaScript `undefined` becomes `Option`, and the external
collaborators (Prisma client, `jsonwebtoken`, `bcryptjs`, Joi's built-in email
check) are modelled symbolically, as documented at each such definition.
-/

namespace MockVoid

/-- JavaScript truthiness for an optional string: `undefined` and the empty
string are falsy, every other string is truthy.  Used wherever the source
writes `if (x)` / `if (!x)` on a possibly-absent string. -/
def jsTruthy (o : Option String) : Bool :=
  if o.getD "" = "" then false else true

theorem jsTruthy_some {s : String} (h : s ≠ "") : jsTruthy (some s) = true := by
  simp [jsTruthy, h]

theorem jsTruthy_none : jsTruthy none = false := by
  simp [jsTruthy]

/-- Consume the `[0-9;]*m` tail of an ANSI SGR escape sequence, returning the
rest of the input when the tail is well formed.  Helper for `cleanAnsiCodes`. -/
def sgrTail : List Char → Option (List Char)
  | [] => none
  | c :: cs =>
    if c = 'm' then some cs
    else if c.isDigit || c = ';' then sgrTail cs
    else none

/-- Worker for `stripSgr`, structurally recursive on a fuel bound so that the
kernel can evaluate it; every call site shortens the character list, so fuel
equal to the input length never runs out. -/
def stripSgrGo : Nat → List Char → List Char
  | 0, _ => []
  | _ + 1, [] => []
  | fuel + 1, '\x1b' :: '[' :: rest =>
    match sgrTail rest with
    | some rest' => stripSgrGo fuel rest'
    | none => '\x1b' :: '[' :: stripSgrGo fuel rest
  | fuel + 1, c :: cs => c :: stripSgrGo fuel cs

/-- Core of `ErrorHandler.cleanAnsiCodes`: remove every non-overlapping match
of the regular expression `\x1b\[[0-9;]*m` from a character list, scanning left
to right exactly as the JavaScript global replace does. -/
def stripSgr (l : List Char) : List Char :=
  stripSgrGo l.length l

/-- Embedding of `ErrorHandler.cleanAnsiCodes` (src part_002): strips ANSI SGR
escape sequences (`ESC [ params m`) from a message; no other control or escape
sequences are touched. -/
def cleanAnsiCodes (message : String) : String :=
  (stripSgr message.toList).asString

/-- Split a character list at every occurrence of a separator, exactly like
the JavaScript single-character `split` (no collapsing: the empty input gives
one empty part, adjacent separators give empty parts). -/
def splitList (sep : Char) : List Char → List (List Char)
  | [] => [[]]
  | c :: cs =>
    match splitList sep cs with
    | [] => [[]]
    | h :: t => if c = sep then [] :: h :: t else (c :: h) :: t

/-- JavaScript `s.split(sep)` for a single-character separator. -/
def jsSplit (sep : Char) (s : String) : List String :=
  (splitList sep s.toList).map List.asString

/-- Try to remove `pat` from the front of a character list. -/
def subtractPat : List Char → List Char → Option (List Char)
  | [], l => some l
  | _ :: _, [] => none
  | p :: ps, c :: cs => if p = c then subtractPat ps cs else none

/-- Worker for `removeAll`: fuel-bounded left-to-right removal of every
non-overlapping occurrence of a fixed nonempty pattern. -/
def removeAllGo (pat : List Char) : Nat → List Char → List Char
  | 0, l => l
  | _ + 1, [] => []
  | fuel + 1, c :: cs =>
    match subtractPat pat (c :: cs) with
    | some rest =>
      if pat.isEmpty then c :: removeAllGo pat fuel cs
      else removeAllGo pat fuel rest
    | none => c :: removeAllGo pat fuel cs

/-- JavaScript `s.replace(pat-as-global-regex, '')` for a fixed literal
pattern: removes every occurrence. -/
def removeAll (pat s : String) : String :=
  (removeAllGo pat.toList s.toList.length s.toList).asString

/-- JavaScript `String.prototype.trim`: strips whitespace from both ends. -/
def jsTrim (s : String) : String :=
  (((s.toList.dropWhile Char.isWhitespace).reverse.dropWhile Char.isWhitespace).reverse).asString

/-- Join lines with a newline separator, as `Array.prototype.join('\n')`. -/
def joinLines : List String → String
  | [] => ""
  | [x] => x
  | x :: xs => x ++ "\n" ++ joinLines xs

/-- Modelled from the spec: the Prisma `Role` enum (the `schema.prisma` file is
not part of the provided sources; spec section 3 gives the enum as
`ADMIN | USER`). -/
inductive Role where
  | ADMIN
  | USER
deriving DecidableEq, Repr

/-- The composite phone type `{countryCode, number}` carried by a user record
(spec section 3; used as `Phone` throughout the TypeScript sources). -/
structure Phone where
  countryCode : String
  number : String
deriving DecidableEq, Repr

/-- Modelled from the spec: the persisted `User` record of the single Prisma
`user` collection (`schema.prisma` is not among the provided sources; the
field list follows spec section 3 and the accesses made by `AuthDao`,
`AuthService` and `UserDto`).  `name` and `phone` are nullable because
`UserDto` guards them with `||` defaults; timestamps are modelled as natural
numbers. -/
structure User where
  id : String
  email : String
  name : Option String
  role : Role
  isVerified : Bool
  phone : Option Phone
  credits : Int
  password : Option String
  provider : Option String
  providerId : Option String
  isDeleted : Bool
  createdAt : Nat
  updatedAt : Nat
deriving DecidableEq, Repr

/-- Embedding of `GlobalConstants` (src part_003), keeping the source's
values.  `TOKEN_EXPIRY = '1h'` is rendered in seconds. -/
def globalConstants.TOKEN_EXPIRY_SECONDS : Nat := 3600

def globalConstants.BCRYPT_ROUNDS : Nat := 12

def globalConstants.PASSWORD_MIN_LENGTH : Nat := 8

def globalConstants.PASSWORD_MAX_LENGTH : Nat := 128

def globalConstants.NAME_MIN_LENGTH : Nat := 2

def globalConstants.NAME_MAX_LENGTH : Nat := 50

def globalConstants.CITY_MIN_LENGTH : Nat := 2

def globalConstants.CITY_MAX_LENGTH : Nat := 50

def globalConstants.AGE_MIN : Int := 1

def globalConstants.AGE_MAX : Int := 120

def globalConstants.DEFAULT_USER_CREDITS : Int := 1000

/-- Test of `GlobalConstants.EMAIL_REGEX`, the anchored pattern
`[^\s@]+@[^\s@]+\.[^\s@]+`: no whitespace anywhere, exactly one `@` with a
nonempty local part, and a dot inside the domain with at least one character
on each side. -/
def emailRegexOk (s : String) : Bool :=
  s.toList.all (fun c => !c.isWhitespace) &&
    match jsSplit '@' s with
    | [a, d] =>
      a ≠ "" &&
        (List.range d.toList.length).any (fun p =>
          d.toList.getD p ' ' = '.' && 1 ≤ p && p + 2 ≤ d.toList.length)
    | _ => false

/-- Model of Joi's built-in `string.email()` check; the Joi library is an npm
dependency, not part of this repository.  It requires exactly one `@`, a
nonempty local part, and a domain of at least two nonempty dot-separated
segments. -/
def joiEmailOk (s : String) : Bool :=
  match jsSplit '@' s with
  | [loc, dom] =>
    loc ≠ "" && decide ((jsSplit '.' dom).length ≥ 2) &&
      (jsSplit '.' dom).all (· ≠ "")
  | _ => false

/-- Test of `GlobalConstants.COUNTRY_CODE_REGEX`, the pattern `\+\d{1,3}`
anchored on both sides. -/
def countryCodeRegexOk (s : String) : Bool :=
  match s.toList with
  | '+' :: ds => decide (1 ≤ ds.length) && decide (ds.length ≤ 3) && ds.all Char.isDigit
  | _ => false

/-- Test of `GlobalConstants.PHONE_NUMBER_REGEX`, the pattern `\d{4,14}`
anchored on both sides. -/
def phoneNumberRegexOk (s : String) : Bool :=
  decide (4 ≤ s.toList.length) && decide (s.toList.length ≤ 14) &&
    s.toList.all Char.isDigit

/-- Test of `GlobalConstants.ZIP_CODE_REGEX`, the pattern `\d{5}(-\d{4})?`
anchored on both sides. -/
def zipCodeRegexOk (s : String) : Bool :=
  match jsSplit '-' s with
  | [a] => decide (a.toList.length = 5) && a.toList.all Char.isDigit
  | [a, b] =>
    decide (a.toList.length = 5) && a.toList.all Char.isDigit &&
      decide (b.toList.length = 4) && b.toList.all Char.isDigit
  | _ => false

/-- Per-field Joi rule for `email` in `Auth.validator` (src part_005), shared
verbatim by the create and the update validators: Joi's built-in email check
plus the project pattern, with the validator's message strings. -/
def emailFieldRules (s : String) : List String :=
  if s = "" then ["Email should not be empty"]
  else
    (if joiEmailOk s then [] else ["Email should be a valid email address"]) ++
      (if emailRegexOk s then [] else ["Email format is invalid"])

/-- Per-field Joi rule for `name` in `Auth.validator` (src part_005), shared
verbatim by the create and the update validators. -/
def nameFieldRules (s : String) : List String :=
  if s = "" then ["Name should not be empty"]
  else
    (if s.toList.length < globalConstants.NAME_MIN_LENGTH then
        ["Name should be at least 2 characters long"]
      else []) ++
      (if s.toList.length > globalConstants.NAME_MAX_LENGTH then
        ["Name should not exceed 50 characters"]
      else [])

/-- Per-field Joi rule for `role` in the create validator:
`Joi.string().valid(...Object.values(Role))`. -/
def roleFieldRules (s : String) : List String :=
  if s = "" then ["Role should not be empty"]
  else if s = "ADMIN" || s = "USER" then []
  else ["Role must be one of the following: ADMIN, USER"]

/-- Per-field Joi rule for `phone.countryCode` in the create validator. -/
def countryCodeFieldRules (s : String) : List String :=
  if s = "" then ["Country code should not be empty"]
  else if countryCodeRegexOk s then []
  else ["Country code format is invalid (use format: +1)"]

/-- Per-field Joi rule for `phone.number` in the create validator. -/
def phoneNumberFieldRules (s : String) : List String :=
  if s = "" then ["Phone number should not be empty"]
  else if phoneNumberRegexOk s then []
  else ["Phone number format is invalid (use format: 1234567890)"]

/-- Per-field Joi rule for `password` in the create validator. -/
def passwordFieldRules (s : String) : List String :=
  if s = "" then ["Password should not be empty"]
  else
    (if s.toList.length < globalConstants.PASSWORD_MIN_LENGTH then
        ["Password should be at least 8 characters long"]
      else []) ++
      (if s.toList.length > globalConstants.PASSWORD_MAX_LENGTH then
        ["Password should not exceed 128 characters"]
      else [])

/-- Per-field Joi rule for `provider` in the create validator. -/
def providerFieldRules (s : String) : List String :=
  if s = "" then ["Provider should not be empty"] else []

/-- Per-field Joi rule for `age` in the update validator (src part_005):
`Joi.number().integer().min(1).max(120)`; the payload field is modelled as
already carrying an integer. -/
def ageFieldRules (a : Int) : List String :=
  (if a < globalConstants.AGE_MIN then ["Age should be at least 1"] else []) ++
    (if a > globalConstants.AGE_MAX then ["Age should not exceed 120"] else [])

/-- Per-field Joi rule for `city` in the update validator (src part_005). -/
def cityFieldRules (s : String) : List String :=
  if s = "" then ["City should not be empty"]
  else
    (if s.toList.length < globalConstants.CITY_MIN_LENGTH then
        ["City should be at least 2 characters long"]
      else []) ++
      (if s.toList.length > globalConstants.CITY_MAX_LENGTH then
        ["City should not exceed 50 characters"]
      else [])

/-- Per-field Joi rule for `zipCode` in the update validator (src part_005). -/
def zipCodeFieldRules (s : String) : List String :=
  if s = "" then ["Zip code should not be empty"]
  else if zipCodeRegexOk s then []
  else ["Zip code format is invalid (use format: 12345 or 12345-6789)"]

/-- Joi plumbing: an optional key with no `required()` marker contributes the
per-value rule's messages when present and nothing when absent. -/
def optRule {α : Type} (o : Option α) (f : α → List String) : List String :=
  match o with
  | none => []
  | some s => f s

/-- Joi plumbing: a key with `required()` contributes its `any.required`
message when absent and the per-value rule's messages when present. -/
def reqRule {α : Type} (o : Option α) (msg : String) (f : α → List String) : List String :=
  match o with
  | none => [msg]
  | some s => f s

/-- Joi plumbing: under the default `allowUnknown: false`, a key the schema
does not declare contributes an `object.unknown` message when present. -/
def unknownKeyRule {α : Type} (o : Option α) (msg : String) : List String :=
  if o.isSome then [msg] else []

/-- The nested phone object of an inbound creation payload; both keys may be
absent, which the create validator reports. -/
structure PhonePayload where
  countryCode : Option String
  number : Option String
deriving DecidableEq, Repr

/-- An inbound creation payload after JSON parsing: every key may be absent
(`none` models a missing key, mirroring `undefined`).  Present values are
modelled as already carrying the declared primitive type; Joi's type errors
(`string.base` etc.) are outside every claim considered here. -/
structure CreateUserPayload where
  email : Option String
  name : Option String
  role : Option String
  isVerified : Option Bool
  phone : Option PhonePayload
  password : Option String
  provider : Option String
  providerId : Option String
deriving DecidableEq, Repr

/-- Embedding of `CreateUserApiRequestValidator` (src part_005), the Joi
schema the controller runs on `POST /auth` bodies with `abortEarly: false`:
the ordered list of per-field failure messages, ending with the
`providerId.when(provider)` rule and the object-level
`.xor('password', 'provider')` rule.  Joi's `xor` and `when` count key
presence, not truthiness. -/
def CreateUserApiRequestValidator (p : CreateUserPayload) : List String :=
  reqRule p.email "Email is required" emailFieldRules ++
  reqRule p.name "Name is required" nameFieldRules ++
  reqRule p.role "Role is required" roleFieldRules ++
  reqRule p.isVerified "isVerified is required" (fun _ => []) ++
  reqRule p.phone "Phone is required" (fun ph =>
    reqRule ph.countryCode "Country code is required" countryCodeFieldRules ++
      reqRule ph.number "Phone number is required" phoneNumberFieldRules) ++
  optRule p.password passwordFieldRules ++
  optRule p.provider providerFieldRules ++
  (match p.provider, p.providerId with
    | some _, none => ["Provider ID is required when provider is specified"]
    | none, some _ => ["Provider ID should only be provided with a provider"]
    | _, _ => []) ++
  (match p.password, p.provider with
    | some _, some _ => ["Either password or provider must be provided, but not both"]
    | none, none => ["Either password or provider must be provided"]
    | _, _ => [])

/-- An inbound update payload after JSON parsing.  Besides the keys the
update schema declares (`email`, `name`, `age`, `city`, `zipCode`), the
structure carries the creation-payload keys a client might send, so that the
validator's treatment of unknown keys is observable. -/
structure UpdateUserPayload where
  email : Option String
  name : Option String
  age : Option Int
  city : Option String
  zipCode : Option String
  role : Option String
  isVerified : Option Bool
  phone : Option PhonePayload
  password : Option String
  provider : Option String
  providerId : Option String
deriving DecidableEq, Repr

/-- Embedding of `UpdateUserApiRequestValidator` (src part_005) — the schema
imported by the controller from `@/validators/Auth.validator` for
`PATCH /auth/:userId` bodies.  Its declared keys are `email`, `name`, `age`,
`city` and `zipCode`, all optional; Joi's default `allowUnknown: false`
rejects every other key with an `object.unknown` message. -/
def UpdateUserApiRequestValidator (q : UpdateUserPayload) : List String :=
  optRule q.email emailFieldRules ++
  optRule q.name nameFieldRules ++
  optRule q.age ageFieldRules ++
  optRule q.city cityFieldRules ++
  optRule q.zipCode zipCodeFieldRules ++
  unknownKeyRule q.role "\"role\" is not allowed" ++
  unknownKeyRule q.isVerified "\"isVerified\" is not allowed" ++
  unknownKeyRule q.phone "\"phone\" is not allowed" ++
  unknownKeyRule q.password "\"password\" is not allowed" ++
  unknownKeyRule q.provider "\"provider\" is not allowed" ++
  unknownKeyRule q.providerId "\"providerId\" is not allowed"

/-- The persistence state behind the Prisma client: the single `user`
collection, in insertion order, plus a counter from which fresh record ids are
drawn (Prisma assigns the opaque id at creation). -/
structure Store where
  users : List User
  nextId : Nat
deriving DecidableEq, Repr

/-- The accessor kind of a single-record lookup (src `Auth.dto.ts`,
`getUserByAttrbRequest.accessType`). -/
inductive AccessType where
  | id
  | email
  | phone
deriving DecidableEq, Repr

/-- Embedding of the `getUserByAttrbRequest` interface (src `Auth.dto.ts`):
the accessor kind together with the looked-up value (named `id` in the
source even for email and phone lookups). -/
structure getUserByAttrbRequest where
  accessType : AccessType
  id : String
deriving DecidableEq, Repr

/-- Embedding of the `CreateUserRequest` interface (src `Auth.dto.ts`): the
service-level creation input, after validation. -/
structure CreateUserRequest where
  email : String
  name : String
  role : Role
  isVerified : Bool
  phone : Phone
  provider : Option String
  providerId : Option String
  password : Option String
deriving DecidableEq, Repr

/-- Embedding of `AuthDao.getUserByAttrb` (src part_004): a Prisma
`findFirst` whose `where` clause selects on the requested attribute —
`email`, `id`, or the nested `phone.number` — and always adds
`isDeleted: false`. -/
def AuthDao.getUserByAttrb (st : Store) (req : getUserByAttrbRequest) : Option User :=
  st.users.find? fun u =>
    (match req.accessType with
      | .email => u.email = req.id
      | .id => u.id = req.id
      | .phone => (u.phone.map Phone.number) = some req.id)
    && u.isDeleted = false

/-- Embedding of `AuthDao.createUser` (src part_004): `prisma.user.create`
with the request data.  Modelled from the spec for the parts fixed by the
absent `schema.prisma`: the fresh opaque id, `credits` defaulting to the
fixed starting allowance, `isDeleted` defaulting to false, and both
timestamps set at creation (spec section 3). -/
def AuthDao.createUser (st : Store) (now : Nat) (userData : CreateUserRequest) :
    User × Store :=
  let u : User :=
    { id := toString st.nextId
      email := userData.email
      name := some userData.name
      role := userData.role
      isVerified := userData.isVerified
      phone := some userData.phone
      credits := globalConstants.DEFAULT_USER_CREDITS
      password := userData.password
      provider := userData.provider
      providerId := userData.providerId
      isDeleted := false
      createdAt := now
      updatedAt := now }
  (u, { users := st.users ++ [u], nextId := st.nextId + 1 })

/-- A partial-update document for `prisma.user.update`: each present field
overwrites the stored one (`phone` replaces the whole composite). -/
structure UserUpdateData where
  email : Option String
  name : Option String
  role : Option Role
  isVerified : Option Bool
  phone : Option Phone
  provider : Option String
  providerId : Option String
  password : Option String
  isDeleted : Option Bool
deriving DecidableEq, Repr

/-- The empty partial-update document. -/
def UserUpdateData.empty : UserUpdateData :=
  ⟨none, none, none, none, none, none, none, none, none⟩

/-- Apply a partial-update document to a stored record.  Modelled from the
spec for the `@updatedAt` behaviour fixed by the absent `schema.prisma`:
`updatedAt` advances on every mutation (spec section 3). -/
def applyUserUpdate (u : User) (d : UserUpdateData) (now : Nat) : User :=
  { u with
    email := d.email.getD u.email
    name := match d.name with | some v => some v | none => u.name
    role := d.role.getD u.role
    isVerified := d.isVerified.getD u.isVerified
    phone := match d.phone with | some v => some v | none => u.phone
    provider := match d.provider with | some v => some v | none => u.provider
    providerId := match d.providerId with | some v => some v | none => u.providerId
    password := match d.password with | some v => some v | none => u.password
    isDeleted := d.isDeleted.getD u.isDeleted
    updatedAt := now }

/-- Model of the external Prisma client's `prisma.user.update`: the `where`
clause selects by unique `id` over the whole collection — soft-deleted
records included, since no `isDeleted` filter is passed — and a missing
record makes the call throw (Prisma error P2025) rather than return null. -/
def prismaUserUpdate (st : Store) (now : Nat) (id : String) (d : UserUpdateData) :
    Except String (User × Store) :=
  match st.users.find? (fun u => u.id = id) with
  | none => .error "Record to update not found."
  | some u =>
    let u' := applyUserUpdate u d now
    .ok (u', { st with users := st.users.map fun v => if v.id = id then u' else v })

/-- Embedding of `AuthDao.updateUser` (src part_004): `prisma.user.update`
with the partial payload as `data`.  The declared TypeScript return type
allows null, but the call either yields the updated record or throws. -/
def AuthDao.updateUser (st : Store) (now : Nat) (id : String) (d : UserUpdateData) :
    Except String (User × Store) :=
  prismaUserUpdate st now id { d with isDeleted := none }

/-- Embedding of `AuthDao.deleteUser` (src part_004): `prisma.user.update`
setting only `isDeleted: true`.  As with `updateUser`, the declared null
return never occurs: the call throws when the id resolves to no record. -/
def AuthDao.deleteUser (st : Store) (now : Nat) (id : String) :
    Except String (User × Store) :=
  prismaUserUpdate st now id { UserUpdateData.empty with isDeleted := some true }

/-- The decoded claims `{userId, iat, exp}` of a verified token (src
`types`, used by `isLoggedIn`). -/
structure JWTPayload where
  userId : String
  iat : Nat
  exp : Nat
deriving DecidableEq, Repr

/-- Symbolic model of a signed `jsonwebtoken` credential: the payload fields
together with the secret the token was signed with.  The HS256 MAC of the
external library is modelled symbolically — a verifier accepts the token
exactly when it holds the same secret. -/
structure Token where
  userId : String
  iat : Nat
  exp : Nat
  signedWith : String
deriving DecidableEq, Repr

/-- Model of `jwt.sign({userId}, secret, {expiresIn: '1h', algorithm:
'HS256'})` from the external `jsonwebtoken` library: `iat` is the signing
time and `exp` lies one hour later. -/
def jwtSign (secret userId : String) (now : Nat) : Token :=
  { userId := userId
    iat := now
    exp := now + globalConstants.TOKEN_EXPIRY_SECONDS
    signedWith := secret }

/-- Model of `jwt.verify(token, secret)` at clock time `now`: succeeds with
the decoded claims exactly when the token was signed with the same secret and
has not expired. -/
def jwtVerify (tok : Token) (secret : String) (now : Nat) : Option JWTPayload :=
  if tok.signedWith = secret ∧ now < tok.exp then
    some { userId := tok.userId, iat := tok.iat, exp := tok.exp }
  else none

/-- Symbolic model of `bcrypt.hash` from the external `bcryptjs` library: an
injective tagging of the plaintext with the cost factor. -/
def bcryptHash (rounds : Nat) (plain : String) : String :=
  "bcrypt$" ++ toString rounds ++ "$" ++ plain

/-- Embedding of the `UserResponse` interface (src `Auth.dto.ts`): the wire
shape of an outward user, with exactly the nine fields `id`, `email`, `name`,
`role`, `isVerified`, `phone`, `credits`, `createdAt`, `updatedAt`. -/
structure UserResponse where
  id : String
  email : String
  name : String
  role : Role
  isVerified : Bool
  phone : Phone
  credits : Int
  createdAt : Nat
  updatedAt : Nat
deriving DecidableEq, Repr

/-- Embedding of the `UserDto` class fields (src `Auth.dto.ts`). -/
structure UserDto where
  id : String
  email : String
  name : String
  role : Role
  isVerified : Bool
  phone : Phone
  credits : Int
  createdAt : Nat
  updatedAt : Nat
deriving DecidableEq, Repr

/-- Embedding of the `UserDto` constructor (src `Auth.dto.ts`): copies the
non-secret fields out of the stored record, defaulting `name`, `phone` and
`isVerified` through `||`, and replacing falsy `credits` (the integer 0) by
the default allowance. -/
def UserDto.fromUser (u : User) : UserDto :=
  { id := u.id
    email := u.email
    name := u.name.getD ""
    role := u.role
    phone := u.phone.getD { countryCode := "", number := "" }
    isVerified := u.isVerified
    credits := if u.credits = 0 then globalConstants.DEFAULT_USER_CREDITS else u.credits
    createdAt := u.createdAt
    updatedAt := u.updatedAt }

/-- Embedding of `UserDto.toJSON` (src `Auth.dto.ts`): the plain-object wire
form of the DTO. -/
def UserDto.toJSON (d : UserDto) : UserResponse :=
  { id := d.id
    email := d.email
    name := d.name
    isVerified := d.isVerified
    phone := d.phone
    role := d.role
    credits := d.credits
    createdAt := d.createdAt
    updatedAt := d.updatedAt }

/-- Embedding of the `UserAuthResponse` type: the `{user, token}` pair
returned by `AuthService.createUser`.  The token is a string in the source,
with `''` as the federated default; the symbolic model renders the empty
default as `none`. -/
structure UserAuthResponse where
  user : UserResponse
  token : Option Token
deriving DecidableEq, Repr

/-- Embedding of `AuthService.generateToken` (src part_005): reads the
signing secret `process.env.PRIVATE_TOKEN_KEY` (falsy means unconfigured and
throws), then signs `{userId}` with a one-hour expiry. -/
def AuthService.generateToken (secret : Option String) (userId : String) (now : Nat) :
    Except String Token :=
  if jsTruthy secret then .ok (jwtSign (secret.getD "") userId now)
  else .error "JWT secret not configured"

/-- Embedding of `AuthService.createUser` (src part_005): looks up an active
user by email and, separately, by phone number; either hit throws the
duplicate error.  A payload with neither a truthy password nor a truthy
provider throws; a local payload has its password bcrypt-hashed before the
DAO persists the record; a token is generated only for local payloads, and
only after the record is persisted. -/
def AuthService.createUser (st : Store) (now : Nat) (secret : Option String)
    (userData : CreateUserRequest) : Except String (UserAuthResponse × Store) :=
  let existingUserEmail := AuthDao.getUserByAttrb st ⟨.email, userData.email⟩
  let existingUserPhone := AuthDao.getUserByAttrb st ⟨.phone, userData.phone.number⟩
  if existingUserEmail.isSome || existingUserPhone.isSome then
    .error "User already exists."
  else if !jsTruthy userData.password && !jsTruthy userData.provider then
    .error "Password is required for local users"
  else
    let userData' :=
      if !jsTruthy userData.provider && jsTruthy userData.password then
        { userData with
          password := some (bcryptHash globalConstants.BCRYPT_ROUNDS (userData.password.getD "")) }
      else userData
    let created := AuthDao.createUser st now userData'
    let userDto := UserDto.fromUser created.1
    if !jsTruthy userData'.provider then
      match AuthService.generateToken secret created.1.id now with
      | .error e => .error e
      | .ok tok => .ok ({ user := userDto.toJSON, token := some tok }, created.2)
    else
      .ok ({ user := userDto.toJSON, token := none }, created.2)

/-- Embedding of `AuthService.getUserByAttrb` (src part_005): delegates to
the DAO and wraps a hit in a DTO; absence is `none`, not an error. -/
def AuthService.getUserByAttrb (st : Store) (req : getUserByAttrbRequest) :
    Option UserDto :=
  (AuthDao.getUserByAttrb st req).map UserDto.fromUser

/-- Embedding of `AuthService.updateUser` (src part_005): delegates to the
DAO and wraps the result in a DTO.  The service's `if (!user) return null`
guard is kept, but the DAO either returns a record or throws, so the `none`
branch is unreachable; a DAO error propagates. -/
def AuthService.updateUser (st : Store) (now : Nat) (userId : String)
    (d : UserUpdateData) : Except String (Option UserDto × Store) :=
  match AuthDao.updateUser st now userId d with
  | .error e => .error e
  | .ok (u, st') => .ok (some (UserDto.fromUser u), st')

/-- Embedding of `AuthService.deleteUser` (src part_005): delegates to the
DAO and reports a boolean.  The service's `if (!user) return false` guard is
kept, but the DAO either returns the record or throws, so the `false` branch
is unreachable; a DAO error propagates. -/
def AuthService.deleteUser (st : Store) (now : Nat) (userId : String) :
    Except String (Bool × Store) :=
  match AuthDao.deleteUser st now userId with
  | .error e => .error e
  | .ok (_, st') => .ok (true, st')

/-- Outcome of the `POST /auth` controller (src `Auth.controller.ts`): a 400
validation envelope, the catch-all 500 envelope, or the 201 success body. -/
inductive CreateReply where
  | validationFailed (details : List String)
  | serverError (errMsg : String)
  | createdUser (resp : UserAuthResponse)
deriving DecidableEq, Repr

/-- The HTTP status the controller writes for each outcome: `res.status(400)`
on validation failure, `res.status(500)` in the catch block, `res.status(201)`
on success. -/
def CreateReply.status : CreateReply → Nat
  | .validationFailed _ => 400
  | .serverError _ => 500
  | .createdUser _ => 201

/-- Conversion from a validated creation payload to the service input: after
`CreateUserApiRequestValidator` passes, the required fields are present, so
the defaults inserted here are never observed. -/
def toCreateUserRequest (p : CreateUserPayload) : CreateUserRequest :=
  { email := p.email.getD ""
    name := p.name.getD ""
    role := if p.role.getD "" = "ADMIN" then Role.ADMIN else Role.USER
    isVerified := p.isVerified.getD false
    phone :=
      { countryCode := (p.phone.bind PhonePayload.countryCode).getD ""
        number := (p.phone.bind PhonePayload.number).getD "" }
    provider := p.provider
    providerId := p.providerId
    password := p.password }

/-- Embedding of `UserAuthController.createUser` (src `Auth.controller.ts`):
validates the body against `CreateUserApiRequestValidator`; a nonempty error
list is answered with 400 and the ordered message list; otherwise the service
runs, a thrown error is answered with 500 by the catch block, and success
with 201. -/
def UserAuthController.createUser (st : Store) (now : Nat) (secret : Option String)
    (p : CreateUserPayload) : CreateReply × Store :=
  let errs := CreateUserApiRequestValidator p
  if errs = [] then
    match AuthService.createUser st now secret (toCreateUserRequest p) with
    | .error e => (.serverError e, st)
    | .ok (resp, st') => (.createdUser resp, st')
  else
    (.validationFailed errs, st)

/-- Outcome of the `isLoggedIn` middleware (src `IsLoggedIn.ts`) up to token
verification: the 500 misconfiguration reply, the 401 no-token reply with its
hint, or the extracted credential handed to `jwt.verify` (whose catch branch
is elided in the source). -/
inductive AuthOutcome where
  | configError (status : Nat) (msg : String)
  | noToken (status : Nat) (msg hint : String)
  | verifyToken (token : String)
deriving DecidableEq, Repr

/-- The 401 reply body of `isLoggedIn` when no credential was extracted,
with the source's message and hint strings. -/
def noTokenReply : AuthOutcome :=
  .noToken 401 "Access denied. No token provided."
    "Use Authorization: Bearer <token> or X-API-Key: <token> header"

/-- Embedding of the `isLoggedIn` middleware (src `IsLoggedIn.ts`): a falsy
secret is a 500; otherwise the credential is taken from
`authorization.split(' ')[1]` whenever the Authorization header is truthy,
else from the `x-api-key` header if truthy; a falsy result (absent header,
no second split component, or empty component) is the 401 no-token reply,
and a truthy one proceeds to verification. -/
def isLoggedIn (authHeader apiKeyHeader secret : Option String) : AuthOutcome :=
  if !jsTruthy secret then
    .configError 500 "Server configuration error"
  else
    let token : Option String :=
      if jsTruthy authHeader then (jsSplit ' ' (authHeader.getD ""))[1]?
      else if jsTruthy apiKeyHeader then apiKeyHeader
      else none
    if jsTruthy token then .verifyToken (token.getD "")
    else noTokenReply

/-- A thrown JavaScript error as the `ErrorHandler` observes it: its
`message` and `stack`, plus the Prisma `code`/`meta` fields when present
(rendered as strings). -/
structure JsError where
  message : Option String
  stack : Option String
  code : Option String
  meta : Option String
deriving DecidableEq, Repr

/-- Embedding of `ErrorHandler.formatStackTrace` (src part_002): clean ANSI
codes, split into lines, drop the first line, normalise separators and strip
the absolute project path from each remaining line, trim it, drop falsy
(empty) lines, and rejoin. -/
def formatStackTrace (stack : Option String) : Option String :=
  match stack with
  | none => none
  | some st =>
    let cleanStack := cleanAnsiCodes st
    let lines := (jsSplit '\n' cleanStack).drop 1
    let formatted := lines.map fun line =>
      jsTrim (removeAll "E:/WORK_OFFICE/My_Personal_Projects/M_API_BACKEND/"
        ((line.toList.map fun c => if c = '\\' then '/' else c).asString))
    some (joinLines (formatted.filter (· ≠ "")))

/-- Embedding of `ErrorHandler.extractPrismaErrorInfo` (src part_002): the
cleaned message (defaulting to the literal used when `error.message` is
falsy) and the optional Prisma details. -/
def extractPrismaErrorInfo (e : JsError) : String × List (String × String) :=
  ( cleanAnsiCodes (if jsTruthy e.message then e.message.getD "" else "Unknown error")
  , (match e.code with | some c => [("code", c)] | none => []) ++
      (match e.meta with | some m => [("meta", m)] | none => []) )

/-- Embedding of the `ErrorResponse` envelope interface (src part_002);
`timestamp` is the clock value at shaping time. -/
structure ErrorResponse where
  success : Bool
  message : String
  error : Option String
  stack : Option String
  details : List (String × String)
  timestamp : Nat
  path : Option String
  method : Option String
deriving DecidableEq, Repr

/-- Embedding of `ErrorHandler.createErrorResponse` (src part_002): the 500
envelope with `message` fixed to `Internal Server Error`, the cleaned error
text, and the formatted stack added only when `process.env.NODE_ENV` is
`'development'` and the formatted stack is truthy (non-empty). -/
def createErrorResponse (e : JsError) (nodeEnv : String) (timestamp : Nat)
    (path method : Option String) : ErrorResponse :=
  let info := extractPrismaErrorInfo e
  let stack := formatStackTrace e.stack
  { success := false
    message := "Internal Server Error"
    error := some info.1
    stack := if nodeEnv = "development" ∧ jsTruthy stack then stack else none
    details := info.2
    timestamp := timestamp
    path := path
    method := method }

/-!  Shared concrete fixtures used by several theorems below. -/

/-- A persisted local-account user, as `AuthDao.createUser` stores it. -/
def storedAnn : User :=
  { id := "0"
    email := "a@x.com"
    name := some "Ann"
    role := Role.USER
    isVerified := false
    phone := some { countryCode := "+1", number := "5551234567" }
    credits := 1000
    password := some "bcrypt$12$longpassword1"
    provider := none
    providerId := none
    isDeleted := false
    createdAt := 0
    updatedAt := 0 }

/-- A store already holding `storedAnn` as an active record. -/
def annStore : Store := ⟨[storedAnn], 1⟩

/-- A store holding only the soft-deleted form of `storedAnn`. -/
def annDeletedStore : Store := ⟨[{ storedAnn with isDeleted := true }], 1⟩

/-- A well-formed local-account creation payload (the spec's section 8
scenario). -/
def annPayload : CreateUserPayload :=
  { email := some "a@x.com"
    name := some "Ann"
    role := some "USER"
    isVerified := some false
    phone := some { countryCode := some "+1", number := some "5551234567" }
    password := some "longpassword1"
    provider := none
    providerId := none }

/-- A valid creation payload sharing only `storedAnn`'s email. -/
def dupEmailPayload : CreateUserPayload :=
  { email := some "a@x.com"
    name := some "Bob"
    role := some "ADMIN"
    isVerified := some true
    phone := some { countryCode := some "+44", number := some "7771234567" }
    password := some "anotherlongpw9"
    provider := none
    providerId := none }

/-- A valid creation payload sharing only `storedAnn`'s phone number. -/
def dupPhonePayload : CreateUserPayload :=
  { email := some "b@y.org"
    name := some "Cid"
    role := some "USER"
    isVerified := some false
    phone := some { countryCode := some "+1", number := some "5551234567" }
    password := some "anotherlongpw9"
    provider := none
    providerId := none }

/-!  Helper lemmas about the Joi plumbing. -/

theorem optRule_eq_nil {α : Type} (o : Option α) (f : α → List String) :
    optRule o f = [] ↔ ∀ s, o = some s → f s = [] := by
  cases o <;> simp [optRule]

theorem unknownKeyRule_eq_nil {α : Type} (o : Option α) (msg : String) :
    unknownKeyRule o msg = [] ↔ o = none := by
  cases o <;> simp [unknownKeyRule]

theorem jsTruthy_isSome {o : Option String} (h : jsTruthy o = true) : o.isSome = true := by
  cases o with
  | none => simp [jsTruthy] at h
  | some s => rfl

/-- C3: for every stored user record, the outward DTO produced by
`UserDto.toJSON` carries exactly the nine fields `id`, `email`, `name`,
`role`, `isVerified`, `phone`, `credits`, `createdAt`, `updatedAt` (the
codomain `UserResponse` has no other field), with the constructor's `||`
defaults, and the result never depends on the password hash or the
provider/providerId credential material: changing those fields arbitrarily
leaves the DTO unchanged. -/
theorem userDto_toJSON_fields_no_secrets (u : User) :
    (UserDto.fromUser u).toJSON =
      { id := u.id
        email := u.email
        name := u.name.getD ""
        role := u.role
        isVerified := u.isVerified
        phone := u.phone.getD { countryCode := "", number := "" }
        credits := if u.credits = 0 then globalConstants.DEFAULT_USER_CREDITS else u.credits
        createdAt := u.createdAt
        updatedAt := u.updatedAt } ∧
    ∀ pw prov provId,
      (UserDto.fromUser
          { u with password := pw, provider := prov, providerId := provId }).toJSON =
        (UserDto.fromUser u).toJSON := by
  exact ⟨rfl, fun _ _ _ => rfl⟩

/-- C6 counterexample: the update payload carrying only `role: "USER"` — a
subset of the creation payload's user fields whose sole field satisfies the
creation-time role rule — is rejected by the wired update validator as an
unknown key instead of being accepted. -/
theorem updateValidator_rejects_role_cex :
    UpdateUserApiRequestValidator
        ⟨none, none, none, none, none, some "USER", none, none, none, none, none⟩ =
      ["\"role\" is not allowed"] ∧
    roleFieldRules "USER" = [] := by
  exact ⟨rfl, rfl⟩

/-- C6 amended: the wired update validator accepts exactly the payloads whose
present keys lie in the schema's field set `email`, `name`, `age`, `city`,
`zipCode` and satisfy their per-field rules (`email` and `name` under the
very same rule functions the create validator uses); the remaining
creation-payload fields `role`, `isVerified`, `phone`, `password`,
`provider`, `providerId` are rejected whenever present. -/
theorem updateValidator_characterization (q : UpdateUserPayload) :
    UpdateUserApiRequestValidator q = [] ↔
      (q.role = none ∧ q.isVerified = none ∧ q.phone = none ∧ q.password = none ∧
        q.provider = none ∧ q.providerId = none ∧
        (∀ s, q.email = some s → emailFieldRules s = []) ∧
        (∀ s, q.name = some s → nameFieldRules s = []) ∧
        (∀ a, q.age = some a → ageFieldRules a = []) ∧
        (∀ s, q.city = some s → cityFieldRules s = []) ∧
        (∀ s, q.zipCode = some s → zipCodeFieldRules s = [])) := by
  simp only [UpdateUserApiRequestValidator, List.append_eq_nil, optRule_eq_nil,
    unknownKeyRule_eq_nil]
  tauto

/-- C9 counterexample: for an uncategorized failure shaped in the `test`
environment — which is not production — the envelope omits the `stack` field,
and a message carrying the non-SGR escape sequence `ESC [ 2 J` passes through
sanitization unchanged. -/
theorem errorResponse_stack_and_escape_cex :
    (createErrorResponse
          ⟨some "boom", some "Error: boom\n    at f (a.js:1:1)", none, none⟩
          "test" 0 none none).stack = none ∧
    "test" ≠ "production" ∧
    (createErrorResponse ⟨some "a\x1b[2Jb", none, none, none⟩
          "development" 0 none none).error = some "a\x1b[2Jb" := by
  refine ⟨by decide, by decide, by decide⟩

/-- C9 amended: the 500 envelope's `error` field is the original message with
ANSI SGR colour sequences stripped by `cleanAnsiCodes` (other control and
escape sequences are preserved, as the counterexample shows), and the `stack`
field is present exactly when `NODE_ENV` is `development` and the error
carries a stack whose formatted form is non-empty. -/
theorem errorResponse_sanitization_amended (e : JsError) (env : String)
    (ts : Nat) (path method : Option String) :
    (createErrorResponse e env ts path method).error =
      some (cleanAnsiCodes (if jsTruthy e.message then e.message.getD "" else "Unknown error")) ∧
    ((createErrorResponse e env ts path method).stack.isSome = true ↔
      (env = "development" ∧ jsTruthy (formatStackTrace e.stack) = true)) := by
  refine ⟨rfl, ?_⟩
  by_cases hc : env = "development" ∧ jsTruthy (formatStackTrace e.stack) = true
  · have hs := jsTruthy_isSome hc.2
    simp [createErrorResponse, hc, hs]
  · simp [createErrorResponse, hc]

/-- C1: against a store holding the active user `storedAnn`, a creation
payload matching her email (with every other field different) and one
matching her phone number both make `AuthService.createUser` throw the
duplicate-user error — the Conflict condition — but the controller's catch
block answers both with HTTP 500, not 409: no 409 reply exists anywhere in
`UserAuthController.createUser`. -/
theorem createUser_duplicate_responds_500 :
    (UserAuthController.createUser annStore 5 (some "secret") dupEmailPayload).1 =
      CreateReply.serverError "User already exists." ∧
    ((UserAuthController.createUser annStore 5 (some "secret") dupEmailPayload).1).status = 500 ∧
    (UserAuthController.createUser annStore 5 (some "secret") dupPhonePayload).1 =
      CreateReply.serverError "User already exists." ∧
    ((UserAuthController.createUser annStore 5 (some "secret") dupPhonePayload).1).status = 500 := by
  refine ⟨by decide, by decide, by decide, by decide⟩

/-- C4: evaluation at the failing inputs.  Soft-deleting an id that is
already soft-deleted succeeds and returns `true` — Prisma's `update` carries
no `isDeleted` filter — instead of the claimed not-found `false`; and
deleting an id that resolves to no record makes the underlying update throw
(Prisma P2025), so the service propagates an error instead of returning
`false`. -/
theorem deleteUser_divergence :
    AuthService.deleteUser annDeletedStore 9 "0" =
      Except.ok (true, ⟨[{ storedAnn with isDeleted := true, updatedAt := 9 }], 1⟩) ∧
    AuthService.deleteUser ⟨[], 0⟩ 9 "missing" =
      Except.error "Record to update not found." := by
  exact ⟨rfl, rfl⟩

/-- C5: evaluation at the failing inputs.  Updating an id whose record is
soft-deleted — hence not an active record — returns the updated DTO rather
than the claimed `null`, because Prisma's `update` ignores the soft-delete
flag; and updating an id that resolves to no record makes the update throw
(Prisma P2025) rather than return `null`.  The same run also shows the
positive half of the claim at this input: only the supplied `name` changed
and `updatedAt` advanced to the call time. -/
theorem updateUser_divergence :
    AuthService.updateUser annDeletedStore 9 "0"
        { UserUpdateData.empty with name := some "Bob" } =
      Except.ok
        (some
          { id := "0", email := "a@x.com", name := "Bob", role := Role.USER,
            isVerified := false, phone := { countryCode := "+1", number := "5551234567" },
            credits := 1000, createdAt := 0, updatedAt := 9 },
          ⟨[{ storedAnn with isDeleted := true, name := some "Bob", updatedAt := 9 }], 1⟩) ∧
    AuthService.updateUser ⟨[], 0⟩ 9 "missing"
        { UserUpdateData.empty with name := some "Bob" } =
      Except.error "Record to update not found." := by
  exact ⟨rfl, rfl⟩

/-- A creation payload carrying both a password and a provider. -/
def bothCredPayload : CreateUserPayload :=
  { annPayload with provider := some "google", providerId := some "g1" }

/-- A creation payload carrying neither a password nor a provider. -/
def noCredPayload : CreateUserPayload :=
  { annPayload with password := none }

/-- C7: a creation payload carrying both credential forms, or neither, never
produces a persisted user: the Joi `xor('password', 'provider')` rule makes
validation fail, the controller answers with the 400 validation reply, and
the store is returned unchanged — the service and DAO are never reached. -/
theorem create_rejects_password_provider_xor (st : Store) (now : Nat)
    (secret : Option String) (p : CreateUserPayload)
    (h : (p.password.isSome = true ∧ p.provider.isSome = true) ∨
      (p.password = none ∧ p.provider = none)) :
    (UserAuthController.createUser st now secret p).1 =
      CreateReply.validationFailed (CreateUserApiRequestValidator p) ∧
    CreateUserApiRequestValidator p ≠ [] ∧
    (UserAuthController.createUser st now secret p).2 = st := by
  have hne : CreateUserApiRequestValidator p ≠ [] := by
    intro hnil
    simp only [CreateUserApiRequestValidator, List.append_eq_nil] at hnil
    rcases h with ⟨h1, h2⟩ | ⟨h1, h2⟩
    · obtain ⟨pw, hpw⟩ := Option.isSome_iff_exists.mp h1
      obtain ⟨pv, hpv⟩ := Option.isSome_iff_exists.mp h2
      rw [hpw, hpv] at hnil
      simp at hnil
    · rw [h1, h2] at hnil
      simp at hnil
  refine ⟨?_, hne, ?_⟩ <;> simp [UserAuthController.createUser, hne]

/-- C7 witness: the both-credentials payload is rejected with the 400
validation reply and leaves the empty store untouched. -/
theorem create_rejects_password_provider_xor_witness :
    (bothCredPayload.password.isSome = true ∧ bothCredPayload.provider.isSome = true) ∧
    ((UserAuthController.createUser ⟨[], 0⟩ 0 (some "k") bothCredPayload).1 =
        CreateReply.validationFailed (CreateUserApiRequestValidator bothCredPayload) ∧
      CreateUserApiRequestValidator bothCredPayload ≠ [] ∧
      (UserAuthController.createUser ⟨[], 0⟩ 0 (some "k") bothCredPayload).2 = ⟨[], 0⟩) :=
  ⟨⟨rfl, rfl⟩,
    create_rejects_password_provider_xor ⟨[], 0⟩ 0 (some "k") bothCredPayload
      (Or.inl ⟨rfl, rfl⟩)⟩

/-- C2: for every local-account creation (password present and truthy,
provider absent) against a store with no active email or phone match and a
configured signing secret, `AuthService.createUser` succeeds and returns a
token that verifies under that secret at every instant before the one-hour
expiry, decoding to claims whose `userId` is exactly the created user's id as
reported in the response DTO. -/
theorem createUser_token_verifies (st : Store) (now : Nat) (s : String)
    (d : CreateUserRequest) (hs : s ≠ "")
    (hemail : AuthDao.getUserByAttrb st ⟨AccessType.email, d.email⟩ = none)
    (hphone : AuthDao.getUserByAttrb st ⟨AccessType.phone, d.phone.number⟩ = none)
    (hpw : jsTruthy d.password = true)
    (hprov : jsTruthy d.provider = false) :
    ∃ resp st', AuthService.createUser st now (some s) d = Except.ok (resp, st') ∧
      ∃ tok, resp.token = some tok ∧
        ∀ t, t < now + globalConstants.TOKEN_EXPIRY_SECONDS →
          jwtVerify tok s t =
            some { userId := resp.user.id, iat := now,
                   exp := now + globalConstants.TOKEN_EXPIRY_SECONDS } := by
  simp only [AuthService.createUser, hemail, hphone, hpw, hprov, Option.isSome_none,
    Bool.or_self, Bool.not_true, Bool.not_false, Bool.false_and, Bool.true_and,
    Bool.and_self, AuthService.generateToken, jsTruthy_some hs, AuthDao.createUser,
    if_false, if_true, Bool.false_eq_true, Bool.true_eq_false, ite_true, ite_false]
  refine ⟨_, _, rfl, _, rfl, ?_⟩
  intro t ht
  simp [jwtVerify, jwtSign, ht, UserDto.fromUser, UserDto.toJSON]

/-- C2 witness: the spec's section 8 scenario payload against the empty
store, with secret `secret`, yields a verifying token for the fresh id. -/
theorem createUser_token_verifies_witness :
    ("secret" ≠ "" ∧
      AuthDao.getUserByAttrb ⟨[], 0⟩
          ⟨AccessType.email, (toCreateUserRequest annPayload).email⟩ = none ∧
      AuthDao.getUserByAttrb ⟨[], 0⟩
          ⟨AccessType.phone, (toCreateUserRequest annPayload).phone.number⟩ = none ∧
      jsTruthy (toCreateUserRequest annPayload).password = true ∧
      jsTruthy (toCreateUserRequest annPayload).provider = false) ∧
    (∃ resp st',
      AuthService.createUser ⟨[], 0⟩ 0 (some "secret") (toCreateUserRequest annPayload) =
        Except.ok (resp, st') ∧
      ∃ tok, resp.token = some tok ∧
        ∀ t, t < 0 + globalConstants.TOKEN_EXPIRY_SECONDS →
          jwtVerify tok "secret" t =
            some { userId := resp.user.id, iat := 0,
                   exp := 0 + globalConstants.TOKEN_EXPIRY_SECONDS }) :=
  ⟨⟨by decide, rfl, rfl, rfl, rfl⟩,
    createUser_token_verifies ⟨[], 0⟩ 0 "secret" (toCreateUserRequest annPayload)
      (by decide) rfl rfl rfl rfl⟩

/-- C8: under a configured secret, the authenticator takes the credential
from the bearer-style Authorization header whenever that header is truthy —
the X-API-Key header is then ignored entirely, so bearer wins when both are
present — and otherwise from the X-API-Key header; when neither header
yields a credential the outcome is the 401 reply whose hint names both
accepted header forms.  Header presence is JavaScript truthiness: a missing
or empty header is absent. -/
theorem isLoggedIn_credential_extraction (a k s : Option String)
    (hs : jsTruthy s = true) :
    (jsTruthy a = true → ∀ k', isLoggedIn a k s = isLoggedIn a k' s) ∧
    (jsTruthy a = true →
      isLoggedIn a k s =
        match (jsSplit ' ' (a.getD ""))[1]? with
        | some t => if t = "" then noTokenReply else AuthOutcome.verifyToken t
        | none => noTokenReply) ∧
    (jsTruthy a = false → jsTruthy k = true →
      isLoggedIn a k s = AuthOutcome.verifyToken (k.getD "")) ∧
    (jsTruthy a = false → jsTruthy k = false → isLoggedIn a k s = noTokenReply) := by
  refine ⟨?_, ?_, ?_, ?_⟩
  · intro ha k'
    simp [isLoggedIn, hs, ha]
  · intro ha
    simp only [isLoggedIn, hs, ha, Bool.not_true, Bool.false_eq_true, if_false, if_true,
      ite_true, ite_false]
    cases hg : (jsSplit ' ' (a.getD ""))[1]? with
    | none => simp [jsTruthy]
    | some t =>
      by_cases ht : t = "" <;> simp [jsTruthy, ht]
  · intro ha hk
    simp [isLoggedIn, hs, ha, hk]
  · intro ha hk
    simp [isLoggedIn, hs, ha, hk, jsTruthy_none]

/-- C8 witness: with both headers present the bearer header supplies the
credential regardless of the API key, a lone API key supplies it otherwise,
and with neither header the reply is the 401 with the hint. -/
theorem isLoggedIn_credential_extraction_witness :
    jsTruthy (some "sec") = true ∧
    ((jsTruthy (some "Bearer abc") = true →
        ∀ k', isLoggedIn (some "Bearer abc") (some "key") (some "sec") =
          isLoggedIn (some "Bearer abc") k' (some "sec")) ∧
      (jsTruthy (some "Bearer abc") = true →
        isLoggedIn (some "Bearer abc") (some "key") (some "sec") =
          match (jsSplit ' ' ((some "Bearer abc").getD ""))[1]? with
          | some t => if t = "" then noTokenReply else AuthOutcome.verifyToken t
          | none => noTokenReply) ∧
      (jsTruthy (some "Bearer abc") = false → jsTruthy (some "key") = true →
        isLoggedIn (some "Bearer abc") (some "key") (some "sec") =
          AuthOutcome.verifyToken ((some "key").getD "")) ∧
      (jsTruthy (some "Bearer abc") = false → jsTruthy (some "key") = false →
        isLoggedIn (some "Bearer abc") (some "key") (some "sec") = noTokenReply)) :=
  ⟨rfl, isLoggedIn_credential_extraction (some "Bearer abc") (some "key") (some "sec") rfl⟩

/-- C10: under a configured secret, whenever the Authorization header is
truthy but splitting it on spaces yields no truthy second component — a bare
token without the `Bearer` prefix, for instance — the middleware answers the
401 no-token reply for every value of the X-API-Key header: the API key is
consulted only when the Authorization header is absent (falsy). -/
theorem isLoggedIn_bare_authorization_401 (a k s : Option String)
    (hs : jsTruthy s = true) (ha : jsTruthy a = true)
    (hbare : jsTruthy ((jsSplit ' ' (a.getD ""))[1]?) = false) :
    isLoggedIn a k s = noTokenReply := by
  simp [isLoggedIn, hs, ha, hbare]

/-- C10 witness: a bare token in the Authorization header draws the 401
no-token reply even though a plausible API key is supplied alongside. -/
theorem isLoggedIn_bare_authorization_401_witness :
    (jsTruthy (some "sec") = true ∧ jsTruthy (some "rawtoken") = true ∧
      jsTruthy ((jsSplit ' ' ((some "rawtoken").getD ""))[1]?) = false) ∧
    isLoggedIn (some "rawtoken") (some "valid-api-key") (some "sec") = noTokenReply :=
  ⟨⟨rfl, rfl, rfl⟩,
    isLoggedIn_bare_authorization_401 (some "rawtoken") (some "valid-api-key") (some "sec")
      rfl rfl rfl⟩

end MockVoid
